import Mathlib

/-!
# Verification of the in-memory GraphQL book store (src/index.ts)

Shallow embedding of the resolver set of the repository: an in-memory
ordered store of book records with linear-scan CRUD resolvers.  The store
is the mutable module-level array `books`; we embed it as an explicit
`List Book` threaded through each operation.  Mutations return their
GraphQL result together with the store state after the call.
-/

namespace BookStore

/-- The `Genre` enumeration of the schema, with exactly the five declared
values. -/
inductive Genre where
  | NONE
  | FICTION
  | MYSTERY
  | FANTASY
  | ROMANCE
deriving DecidableEq, Repr

/-- A stored book record.  Optional schema fields (`description`, `isbn`,
`publishYear`, `authorNationality`) are `Option`s; in the source they may
be absent from the record object.  `author` is not stored: it is computed
by the `Book.author` field resolver. -/
structure Book where
  id : String
  title : String
  description : Option String
  isbn : Option String
  publisher : String
  genre : Genre
  publishYear : Option Int
  authorName : String
  authorNationality : Option String
deriving DecidableEq, Repr

/-- The derived `Author` view `{name, nationality}`. -/
structure Author where
  name : String
  nationality : Option String
deriving DecidableEq, Repr

/-- A structured GraphQL error: message plus the machine-readable
`extensions.code`. -/
structure GraphQLError where
  message : String
  code : String
deriving DecidableEq, Repr

/-- The seed dataset: the two literal records of the `books` array in the
source. -/
def books : List Book :=
  [ { id := "d26fd654-f4d4-4b98-91e5-6d8c9569aed6",
      title := "The Awakening",
      description := some "The Awakening es una novela de la escritora estadounidense Kate Chopin.",
      isbn := none,
      publisher := "W W Norton & Co Inc",
      genre := Genre.NONE,
      publishYear := some 1899,
      authorName := "Kate Chopin",
      authorNationality := none },
    { id := "35b19ead-3aa9-415e-a46d-6621e1604119",
      title := "City of Glass",
      description := some "Ciudad de cristal es el tercer libro de la saga Cazadores de Sombras, escrita por Cassandra Clare. Fue publicada originalmente en Estados Unidos.",
      isbn := some "978-0140097313",
      publisher := "Simon & Schuster",
      genre := Genre.FANTASY,
      publishYear := some 2009,
      authorName := "Paul Auster",
      authorNationality := some "Estadounidense" } ]

/-- Resolver `Query.getBooks`: returns the store's current ordered
sequence. -/
def getBooks (store : List Book) : List Book :=
  store

/-- Resolver `Query.getBooksCount`: returns `books.length`. -/
def getBooksCount (store : List Book) : Nat :=
  store.length

/-- Resolver `Query.getBook`: `books.find(book => book.id === id)`;
the first record with matching id, or an absent result. -/
def getBook (id : String) (store : List Book) : Option Book :=
  store.find? (fun book => book.id == id)

/-- Field resolver `Book.author`: the pure projection
`{name: root.authorName, nationality: root.authorNationality}`. -/
def Book.author (root : Book) : Author :=
  { name := root.authorName, nationality := root.authorNationality }

/-- The arguments of the `addBook` mutation: every `Book` scalar field
except `id`, with `authorName` required and `authorNationality`
optional. -/
structure AddBookArgs where
  title : String
  description : Option String
  isbn : Option String
  publisher : String
  genre : Genre
  publishYear : Option Int
  authorName : String
  authorNationality : Option String
deriving DecidableEq, Repr

/-- The error thrown by `addBook` on a duplicate title: the Spanish
message constant of the source together with code `BAD_USER_INPUT`. -/
def dupTitleError : GraphQLError :=
  { message := "Título es una valor único", code := "BAD_USER_INPUT" }

/-- The record built by `addBook`: `{ ...args, id: uuid() }`. -/
def mkBook (args : AddBookArgs) (newId : String) : Book :=
  { id := newId,
    title := args.title,
    description := args.description,
    isbn := args.isbn,
    publisher := args.publisher,
    genre := args.genre,
    publishYear := args.publishYear,
    authorName := args.authorName,
    authorNationality := args.authorNationality }

/-- Resolver `Mutation.addBook`.  The call to the external `uuid()`
generator is embedded as the explicit argument `newId` (the source relies
on the library's guarantee that the generated id is fresh; theorems take
that freshness as a hypothesis where they need it).  If some stored record
has the same title the resolver throws `dupTitleError` before any
mutation, so the store is returned unchanged; otherwise the new record is
pushed at the end. -/
def addBook (args : AddBookArgs) (newId : String) (store : List Book) :
    Except GraphQLError Book × List Book :=
  if (store.find? (fun book => book.title == args.title)).isSome then
    (Except.error dupTitleError, store)
  else
    let newBook := mkBook args newId
    (Except.ok newBook, store ++ [newBook])

/-- The arguments of the `updateBook` mutation: all fields optional
except `id`. -/
structure UpdateBookArgs where
  id : String
  title : Option String
  description : Option String
  isbn : Option String
  publisher : Option String
  genre : Option Genre
  publishYear : Option Int
  authorName : Option String
  authorNationality : Option String
deriving DecidableEq, Repr

/-- JavaScript truthiness of an optional string argument: absent
(`undefined`/`null`) and the empty string are falsy. -/
def truthyStr : Option String → Bool
  | none => false
  | some s => !(s == "")

/-- JavaScript truthiness of an optional integer argument: absent and
`0` are falsy. -/
def truthyInt : Option Int → Bool
  | none => false
  | some n => !(n == 0)

/-- JavaScript truthiness of an optional genre argument: enum values
reach the resolver as their (non-empty) name string, so any supplied
value is truthy. -/
def truthyGenre : Option Genre → Bool
  | none => false
  | some _ => true

/-- The JS conditional `arg ? arg : prior` for a required string field of
the stored record. -/
def pickStr (arg : Option String) (prior : String) : String :=
  if truthyStr arg then arg.getD prior else prior

/-- The JS conditional `arg ? arg : prior` for an optional string field
of the stored record. -/
def pickOptStr (arg : Option String) (prior : Option String) : Option String :=
  if truthyStr arg then arg else prior

/-- The JS conditional `arg ? arg : prior` for the optional `publishYear`
field. -/
def pickOptInt (arg : Option Int) (prior : Option Int) : Option Int :=
  if truthyInt arg then arg else prior

/-- The JS conditional `arg ? arg : prior` for the required `genre`
field. -/
def pickGenre (arg : Option Genre) (prior : Genre) : Genre :=
  if truthyGenre arg then arg.getD prior else prior

/-- The merged record `{...book, title: args.title ? args.title :
book.title, ...}` of `updateBook`: each field is replaced when the
supplied value is truthy and retained otherwise; `id` is spread from the
stored record. -/
def mergeBook (args : UpdateBookArgs) (book : Book) : Book :=
  { book with
    title := pickStr args.title book.title,
    description := pickOptStr args.description book.description,
    isbn := pickOptStr args.isbn book.isbn,
    publisher := pickStr args.publisher book.publisher,
    genre := pickGenre args.genre book.genre,
    publishYear := pickOptInt args.publishYear book.publishYear,
    authorName := pickStr args.authorName book.authorName,
    authorNationality := pickOptStr args.authorNationality book.authorNationality }

/-- `Array.prototype.findIndex`: index of the first element satisfying
the predicate, or an absent result (`-1` in the source). -/
def findIndex {α : Type} (p : α → Bool) : List α → Option Nat
  | [] => none
  | a :: as => if p a then some 0 else (findIndex p as).map (· + 1)

/-- Resolver `Mutation.updateBook`: find the index of the record with the
given id (`null` if there is none), merge the truthy arguments into it,
and write the merged record back at the same index. -/
def updateBook (args : UpdateBookArgs) (store : List Book) :
    Option Book × List Book :=
  match findIndex (fun book => book.id == args.id) store with
  | none => (none, store)
  | some i =>
    match store[i]? with
    | none => (none, store)
    | some book =>
      let updatedBook := mergeBook args book
      (some updatedBook, store.set i updatedBook)

/-- Resolver `Mutation.deleteBook`: find the index of the record with the
given id (`null` if there is none), remove it with `splice` (shifting the
subsequent elements), and return the removed record. -/
def deleteBook (id : String) (store : List Book) :
    Option Book × List Book :=
  match findIndex (fun book => book.id == id) store with
  | none => (none, store)
  | some i => (store[i]?, store.eraseIdx i)

/-- The read resolvers in the same store-passing presentation as the
mutations: their bodies contain no assignment to the store, so the state
they return is the state they were given. -/
def getBooksOp (store : List Book) : List Book × List Book :=
  (getBooks store, store)

/-- `Query.getBooksCount` in store-passing presentation. -/
def getBooksCountOp (store : List Book) : Nat × List Book :=
  (getBooksCount store, store)

/-- `Query.getBook` in store-passing presentation. -/
def getBookOp (id : String) (store : List Book) : Option Book × List Book :=
  (getBook id store, store)

/-- `Book.author` in store-passing presentation. -/
def authorOp (root : Book) (store : List Book) : Author × List Book :=
  (Book.author root, store)

/-! ## Helper lemmas about the linear scans -/

theorem findIndex_eq_none {α : Type} {p : α → Bool} {l : List α} :
    findIndex p l = none ↔ ∀ x ∈ l, p x = false := by
  induction l with
  | nil => simp [findIndex]
  | cons a as ih =>
    cases hpa : p a with
    | true => simp [findIndex, hpa]
    | false =>
      simp only [findIndex, hpa, Bool.false_eq_true, if_false, Option.map_eq_none',
        ih, List.mem_cons]
      constructor
      · intro hall x hx
        rcases hx with rfl | hx
        · exact hpa
        · exact hall x hx
      · intro hall x hx
        exact hall x (Or.inr hx)

theorem findIndex_append_cons {α : Type} (p : α → Bool) (pre : List α) (b : α)
    (post : List α) (hpre : ∀ x ∈ pre, p x = false) (hb : p b = true) :
    findIndex p (pre ++ b :: post) = some pre.length := by
  induction pre with
  | nil => simp [findIndex, hb]
  | cons a as ih =>
    have ha : p a = false := hpre a (List.mem_cons_self a as)
    have has : ∀ x ∈ as, p x = false := fun x hx => hpre x (List.mem_cons_of_mem a hx)
    simp [findIndex, ha, ih has]

theorem getElem?_append_cons {α : Type} (pre : List α) (b : α) (post : List α) :
    (pre ++ b :: post)[pre.length]? = some b := by
  induction pre with
  | nil => simp
  | cons a as ih => simpa using ih

theorem set_append_cons {α : Type} (pre : List α) (b u : α) (post : List α) :
    (pre ++ b :: post).set pre.length u = pre ++ u :: post := by
  rw [List.set_append]
  simp

theorem eraseIdx_append_cons {α : Type} (pre : List α) (b : α) (post : List α) :
    (pre ++ b :: post).eraseIdx pre.length = pre ++ post := by
  rw [List.eraseIdx_append_of_length_le (Nat.le_refl _)]
  simp

theorem exists_first_split {α : Type} (p : α → Bool) {l : List α}
    (h : ∃ x ∈ l, p x = true) :
    ∃ pre b post, l = pre ++ b :: post ∧ p b = true ∧ ∀ x ∈ pre, p x = false := by
  induction l with
  | nil => simp at h
  | cons a as ih =>
    cases ha : p a with
    | true => exact ⟨[], a, as, rfl, ha, by simp⟩
    | false =>
      have h' : ∃ x ∈ as, p x = true := by
        rcases h with ⟨x, hx, hpx⟩
        rcases List.mem_cons.mp hx with rfl | hx
        · rw [ha] at hpx; exact absurd hpx (by simp)
        · exact ⟨x, hx, hpx⟩
      rcases ih h' with ⟨pre, b, post, rfl, hb, hpre⟩
      refine ⟨a :: pre, b, post, rfl, hb, ?_⟩
      intro x hx
      rcases List.mem_cons.mp hx with rfl | hx
      · exact ha
      · exact hpre x hx

theorem updateBook_split (args : UpdateBookArgs) (pre : List Book) (b : Book)
    (post : List Book) (hpre : ∀ x ∈ pre, x.id ≠ args.id) (hb : b.id = args.id) :
    updateBook args (pre ++ b :: post) =
      (some (mergeBook args b), pre ++ mergeBook args b :: post) := by
  have hpre' : ∀ x ∈ pre, (x.id == args.id) = false := by
    intro x hx; simpa using hpre x hx
  have hb' : (b.id == args.id) = true := by simpa using hb
  rw [updateBook, findIndex_append_cons _ pre b post hpre' hb']
  simp only [getElem?_append_cons, set_append_cons]

theorem deleteBook_split (id : String) (pre : List Book) (b : Book)
    (post : List Book) (hpre : ∀ x ∈ pre, x.id ≠ id) (hb : b.id = id) :
    deleteBook id (pre ++ b :: post) = (some b, pre ++ post) := by
  have hpre' : ∀ x ∈ pre, (x.id == id) = false := by
    intro x hx; simpa using hpre x hx
  have hb' : (b.id == id) = true := by simpa using hb
  rw [deleteBook, findIndex_append_cons _ pre b post hpre' hb']
  simp only [getElem?_append_cons, eraseIdx_append_cons]

theorem getBook_eq_none (id : String) (store : List Book)
    (h : ∀ b ∈ store, b.id ≠ id) : getBook id store = none := by
  rw [getBook, List.find?_eq_none]
  intro x hx
  simpa using h x hx

theorem updateBook_not_found (args : UpdateBookArgs) (store : List Book)
    (h : ∀ b ∈ store, b.id ≠ args.id) : updateBook args store = (none, store) := by
  have hnone : findIndex (fun book => book.id == args.id) store = none :=
    findIndex_eq_none.mpr (by intro x hx; simpa using h x hx)
  rw [updateBook, hnone]

theorem deleteBook_not_found (id : String) (store : List Book)
    (h : ∀ b ∈ store, b.id ≠ id) : deleteBook id store = (none, store) := by
  have hnone : findIndex (fun book => book.id == id) store = none :=
    findIndex_eq_none.mpr (by intro x hx; simpa using h x hx)
  rw [deleteBook, hnone]

theorem pickStr_truthy {arg : Option String} (prior : String)
    (h : truthyStr arg = true) : some (pickStr arg prior) = arg := by
  cases arg with
  | none => simp [truthyStr] at h
  | some s => simp [pickStr, h]

theorem pickStr_falsy {arg : Option String} (prior : String)
    (h : truthyStr arg = false) : pickStr arg prior = prior := by
  simp [pickStr, h]

theorem pickOptStr_truthy {arg : Option String} (prior : Option String)
    (h : truthyStr arg = true) : pickOptStr arg prior = arg := by
  simp [pickOptStr, h]

theorem pickOptStr_falsy {arg : Option String} (prior : Option String)
    (h : truthyStr arg = false) : pickOptStr arg prior = prior := by
  simp [pickOptStr, h]

theorem pickOptInt_truthy {arg : Option Int} (prior : Option Int)
    (h : truthyInt arg = true) : pickOptInt arg prior = arg := by
  simp [pickOptInt, h]

theorem pickOptInt_falsy {arg : Option Int} (prior : Option Int)
    (h : truthyInt arg = false) : pickOptInt arg prior = prior := by
  simp [pickOptInt, h]

theorem pickGenre_truthy {arg : Option Genre} (prior : Genre)
    (h : truthyGenre arg = true) : some (pickGenre arg prior) = arg := by
  cases arg with
  | none => simp [truthyGenre] at h
  | some g => simp [pickGenre, truthyGenre]

theorem pickGenre_falsy {arg : Option Genre} (prior : Genre)
    (h : truthyGenre arg = false) : pickGenre arg prior = prior := by
  cases arg with
  | none => simp [pickGenre, truthyGenre]
  | some g => simp [truthyGenre] at h

/-! ## Concrete inputs used by the witnesses -/

/-- An addBook argument record whose title duplicates the first seed
record's title. -/
def dupAddArgs : AddBookArgs :=
  { title := "The Awakening", description := none, isbn := none,
    publisher := "Some Publisher", genre := Genre.NONE, publishYear := none,
    authorName := "Somebody", authorNationality := none }

/-- An addBook argument record with a title not in the seed store. -/
def freshAddArgs : AddBookArgs :=
  { title := "A Fresh Title", description := some "d", isbn := some "i",
    publisher := "Pub", genre := Genre.MYSTERY, publishYear := some 2024,
    authorName := "An Author", authorNationality := some "Boliviana" }

/-- An updateBook argument record whose id matches no seed record. -/
def absentUpdateArgs : UpdateBookArgs :=
  { id := "no-such-id", title := none, description := none, isbn := none,
    publisher := none, genre := none, publishYear := none,
    authorName := none, authorNationality := none }

/-- An updateBook argument record exercising both truthy and falsy
supplied values against the first seed record. -/
def mixedUpdateArgs : UpdateBookArgs :=
  { id := "d26fd654-f4d4-4b98-91e5-6d8c9569aed6", title := some "New Title",
    description := some "", isbn := none, publisher := none,
    genre := some Genre.ROMANCE, publishYear := some 0,
    authorName := some "New Author", authorNationality := none }

/-- An updateBook argument record that retitles the first seed record to
the second one's title. -/
def retitleUpdateArgs : UpdateBookArgs :=
  { id := "d26fd654-f4d4-4b98-91e5-6d8c9569aed6",
    title := some "City of Glass", description := none, isbn := none,
    publisher := none, genre := none, publishYear := none,
    authorName := none, authorNationality := none }

/-! ## The claims -/

/-- C1: whenever some stored record's title equals the supplied title,
addBook fails with the Spanish-message BAD_USER_INPUT error and the store
is returned unmodified, so the count and every stored record are
unchanged. -/
theorem addBook_duplicate_title_rejected (args : AddBookArgs) (newId : String)
    (store : List Book) (hdup : ∃ b ∈ store, b.title = args.title) :
    addBook args newId store = (Except.error dupTitleError, store) ∧
    dupTitleError.code = "BAD_USER_INPUT" ∧
    dupTitleError.message = "Título es una valor único" ∧
    getBooksCount (addBook args newId store).2 = getBooksCount store := by
  have hfound : (store.find? (fun book => book.title == args.title)).isSome = true := by
    rw [List.find?_isSome]
    rcases hdup with ⟨b, hb, ht⟩
    exact ⟨b, hb, by simpa using ht⟩
  have h1 : addBook args newId store = (Except.error dupTitleError, store) := by
    simp [addBook, hfound]
  exact ⟨h1, rfl, rfl, by rw [h1]⟩

/-- Witness for C1 at the seed store, duplicating "The Awakening". -/
theorem addBook_duplicate_title_rejected_witness :
    (∃ b ∈ books, b.title = dupAddArgs.title) ∧
    (addBook dupAddArgs "some-new-id" books = (Except.error dupTitleError, books) ∧
     dupTitleError.code = "BAD_USER_INPUT" ∧
     dupTitleError.message = "Título es una valor único" ∧
     getBooksCount (addBook dupAddArgs "some-new-id" books).2 = getBooksCount books) :=
  ⟨by decide, addBook_duplicate_title_rejected dupAddArgs "some-new-id" books (by decide)⟩

/-- C2: for an id not present in the store, getBook, updateBook and
deleteBook each return an absent result (no error is possible by their
result types) and leave the store unchanged. -/
theorem not_found_returns_null (id : String) (args : UpdateBookArgs)
    (store : List Book) (hid : args.id = id)
    (habsent : ∀ b ∈ store, b.id ≠ id) :
    getBook id store = none ∧
    updateBook args store = (none, store) ∧
    deleteBook id store = (none, store) := by
  subst hid
  exact ⟨getBook_eq_none _ _ habsent, updateBook_not_found _ _ habsent,
    deleteBook_not_found _ _ habsent⟩

/-- Witness for C2 at the seed store with an unknown id. -/
theorem not_found_returns_null_witness :
    absentUpdateArgs.id = "no-such-id" ∧ (∀ b ∈ books, b.id ≠ "no-such-id") ∧
    (getBook "no-such-id" books = none ∧
     updateBook absentUpdateArgs books = (none, books) ∧
     deleteBook "no-such-id" books = (none, books)) :=
  ⟨rfl, by decide,
    not_found_returns_null "no-such-id" absentUpdateArgs books rfl (by decide)⟩

/-- C4: in every store state, getBooksCount equals the number of
elements returned by getBooks. -/
theorem getBooksCount_eq_getBooks_length (store : List Book) :
    getBooksCount store = (getBooks store).length :=
  rfl

/-- C9: every read resolver (getBooks, getBooksCount, getBook and the
Book.author field resolver) returns the store it was given. -/
theorem read_resolvers_leave_store_unchanged (store : List Book) (id : String)
    (root : Book) :
    (getBooksOp store).2 = store ∧ (getBooksCountOp store).2 = store ∧
    (getBookOp id store).2 = store ∧ (authorOp root store).2 = store :=
  ⟨rfl, rfl, rfl, rfl⟩

/-- C10: addBook raises the BAD_USER_INPUT error exactly when some stored
record's title is (case-sensitively) equal to the supplied title, and
that duplicate-title error is its only failure: otherwise it returns the
new record built from the arguments unchanged. -/
theorem addBook_error_iff_duplicate_title (args : AddBookArgs) (newId : String)
    (store : List Book) :
    ((addBook args newId store).1 = Except.error dupTitleError ↔
      ∃ b ∈ store, b.title = args.title) ∧
    ((addBook args newId store).1 = Except.error dupTitleError ∨
      (addBook args newId store).1 = Except.ok (mkBook args newId)) := by
  by_cases h : (store.find? (fun book => book.title == args.title)).isSome = true
  · have hex : ∃ b ∈ store, b.title = args.title := by
      rw [List.find?_isSome] at h
      rcases h with ⟨b, hb, ht⟩
      exact ⟨b, hb, by simpa using ht⟩
    simp [addBook, h, hex]
  · have hno : ¬∃ b ∈ store, b.title = args.title := by
      rw [List.find?_isSome] at h
      rintro ⟨b, hb, ht⟩
      exact h ⟨b, hb, by simpa using ht⟩
    have hb : (store.find? (fun book => book.title == args.title)).isSome = false := by
      simpa using h
    simp [addBook, hb, hno]

/-- C3: when no stored record has the supplied title and the generated id
is fresh (the uuid generator's guarantee), addBook succeeds, appends the
new record at the end, increases the count by one, gives the new record
the fresh id and the supplied scalar fields, makes it retrievable via
getBook, and its author field is the projection of the supplied author
arguments. -/
theorem addBook_success (args : AddBookArgs) (newId : String) (store : List Book)
    (hfresh : ∀ b ∈ store, b.id ≠ newId)
    (hnewtitle : ∀ b ∈ store, b.title ≠ args.title) :
    ∃ newBook : Book,
      addBook args newId store = (Except.ok newBook, store ++ [newBook]) ∧
      getBooksCount (store ++ [newBook]) = getBooksCount store + 1 ∧
      newBook.id = newId ∧ (∀ b ∈ store, b.id ≠ newBook.id) ∧
      newBook.title = args.title ∧ newBook.description = args.description ∧
      newBook.isbn = args.isbn ∧ newBook.publisher = args.publisher ∧
      newBook.genre = args.genre ∧ newBook.publishYear = args.publishYear ∧
      newBook.authorName = args.authorName ∧
      newBook.authorNationality = args.authorNationality ∧
      getBook newId (store ++ [newBook]) = some newBook ∧
      Book.author newBook =
        { name := args.authorName, nationality := args.authorNationality } := by
  have hnotfound : (store.find? (fun book => book.title == args.title)).isSome = false := by
    rw [Bool.eq_false_iff]
    rw [Ne, List.find?_isSome]
    rintro ⟨b, hb, ht⟩
    exact hnewtitle b hb (by simpa using ht)
  refine ⟨mkBook args newId, ?_, ?_, rfl, ?_, rfl, rfl, rfl, rfl, rfl, rfl, rfl, rfl,
    ?_, rfl⟩
  · simp [addBook, hnotfound]
  · simp [getBooksCount]
  · intro b hb
    exact hfresh b hb
  · rw [getBook, List.find?_append]
    have h1 : store.find? (fun book => book.id == newId) = none := by
      rw [List.find?_eq_none]
      intro x hx
      simpa using hfresh x hx
    rw [h1]
    simp [mkBook]

/-- Witness for C3 at the seed store with a fresh title and id. -/
theorem addBook_success_witness :
    (∀ b ∈ books, b.id ≠ "brand-new-id") ∧
    (∀ b ∈ books, b.title ≠ freshAddArgs.title) ∧
    (∃ newBook : Book,
      addBook freshAddArgs "brand-new-id" books = (Except.ok newBook, books ++ [newBook]) ∧
      getBooksCount (books ++ [newBook]) = getBooksCount books + 1 ∧
      newBook.id = "brand-new-id" ∧ (∀ b ∈ books, b.id ≠ newBook.id) ∧
      newBook.title = freshAddArgs.title ∧
      newBook.description = freshAddArgs.description ∧
      newBook.isbn = freshAddArgs.isbn ∧ newBook.publisher = freshAddArgs.publisher ∧
      newBook.genre = freshAddArgs.genre ∧
      newBook.publishYear = freshAddArgs.publishYear ∧
      newBook.authorName = freshAddArgs.authorName ∧
      newBook.authorNationality = freshAddArgs.authorNationality ∧
      getBook "brand-new-id" (books ++ [newBook]) = some newBook ∧
      Book.author newBook =
        { name := freshAddArgs.authorName,
          nationality := freshAddArgs.authorNationality }) :=
  ⟨by decide, by decide,
    addBook_success freshAddArgs "brand-new-id" books (by decide) (by decide)⟩

/-- C5: deleting an id that is present (in a store with distinct ids)
returns the first record carrying it, removes exactly that record while
preserving the relative order of the others, decreases the count by one,
and makes a subsequent getBook of that id return an absent result. -/
theorem deleteBook_found (id : String) (store : List Book)
    (hnodup : (store.map Book.id).Nodup)
    (hmem : ∃ b ∈ store, b.id = id) :
    ∃ pre b post, store = pre ++ b :: post ∧ b.id = id ∧
      (∀ x ∈ pre, x.id ≠ id) ∧
      deleteBook id store = (some b, pre ++ post) ∧
      getBooksCount (pre ++ post) + 1 = getBooksCount store ∧
      getBook id (pre ++ post) = none := by
  have hmem' : ∃ x ∈ store, (x.id == id) = true := by
    rcases hmem with ⟨b, hb, hid⟩
    exact ⟨b, hb, by simpa using hid⟩
  rcases exists_first_split _ hmem' with ⟨pre, b, post, rfl, hb, hpre⟩
  have hbid : b.id = id := by simpa using hb
  have hpre' : ∀ x ∈ pre, x.id ≠ id := by
    intro x hx
    simpa using hpre x hx
  rw [List.map_append, List.map_cons] at hnodup
  rcases List.nodup_append.mp hnodup with ⟨h1, h2, hdisj⟩
  rcases List.nodup_cons.mp h2 with ⟨hbpost, h3⟩
  refine ⟨pre, b, post, rfl, hbid, hpre',
    deleteBook_split id pre b post hpre' hbid, ?_, ?_⟩
  · simp only [getBooksCount, List.length_append, List.length_cons]
    omega
  · apply getBook_eq_none
    intro x hx hxid
    rcases List.mem_append.mp hx with hxpre | hxpost
    · exact hpre' x hxpre hxid
    · apply hbpost
      have hbx : b.id = x.id := by rw [hbid, hxid]
      rw [hbx]
      exact List.mem_map_of_mem Book.id hxpost

/-- Witness for C5 at the seed store, deleting the first seed record. -/
theorem deleteBook_found_witness :
    (books.map Book.id).Nodup ∧
    (∃ b ∈ books, b.id = "d26fd654-f4d4-4b98-91e5-6d8c9569aed6") ∧
    (∃ pre b post, books = pre ++ b :: post ∧
      b.id = "d26fd654-f4d4-4b98-91e5-6d8c9569aed6" ∧
      (∀ x ∈ pre, x.id ≠ "d26fd654-f4d4-4b98-91e5-6d8c9569aed6") ∧
      deleteBook "d26fd654-f4d4-4b98-91e5-6d8c9569aed6" books = (some b, pre ++ post) ∧
      getBooksCount (pre ++ post) + 1 = getBooksCount books ∧
      getBook "d26fd654-f4d4-4b98-91e5-6d8c9569aed6" (pre ++ post) = none) :=
  ⟨by decide, by decide,
    deleteBook_found "d26fd654-f4d4-4b98-91e5-6d8c9569aed6" books (by decide) (by decide)⟩

/-- C6: updating an existing record with a non-empty title and no other
argument replaces only its title, keeps its id and every other field,
and writes the merged record back at the same position. -/
theorem updateBook_title_only (id t : String) (store : List Book)
    (ht : t ≠ "") (hmem : ∃ b ∈ store, b.id = id) :
    ∃ pre b post u, store = pre ++ b :: post ∧ b.id = id ∧
      (∀ x ∈ pre, x.id ≠ id) ∧
      updateBook
        { id := id, title := some t, description := none, isbn := none,
          publisher := none, genre := none, publishYear := none,
          authorName := none, authorNationality := none } store
        = (some u, pre ++ u :: post) ∧
      u.title = t ∧ u.id = b.id ∧ u.description = b.description ∧
      u.isbn = b.isbn ∧ u.publisher = b.publisher ∧ u.genre = b.genre ∧
      u.publishYear = b.publishYear ∧ u.authorName = b.authorName ∧
      u.authorNationality = b.authorNationality := by
  have hmem' : ∃ x ∈ store, (x.id == id) = true := by
    rcases hmem with ⟨b, hb, hid⟩
    exact ⟨b, hb, by simpa using hid⟩
  rcases exists_first_split _ hmem' with ⟨pre, b, post, rfl, hb, hpre⟩
  have hbid : b.id = id := by simpa using hb
  have hpre' : ∀ x ∈ pre, x.id ≠ id := by
    intro x hx
    simpa using hpre x hx
  refine ⟨pre, b, post,
    mergeBook
      { id := id, title := some t, description := none, isbn := none,
        publisher := none, genre := none, publishYear := none,
        authorName := none, authorNationality := none } b,
    rfl, hbid, hpre', updateBook_split _ pre b post hpre' hbid,
    ?_, rfl, ?_, ?_, ?_, ?_, ?_, ?_, ?_⟩
  all_goals
    simp [mergeBook, pickStr, pickOptStr, pickOptInt, pickGenre,
      truthyStr, truthyInt, truthyGenre, ht]

/-- Witness for C6 at the seed store, retitling the second seed record. -/
theorem updateBook_title_only_witness :
    "Another Title" ≠ "" ∧
    (∃ b ∈ books, b.id = "35b19ead-3aa9-415e-a46d-6621e1604119") ∧
    (∃ pre b post u, books = pre ++ b :: post ∧
      b.id = "35b19ead-3aa9-415e-a46d-6621e1604119" ∧
      (∀ x ∈ pre, x.id ≠ "35b19ead-3aa9-415e-a46d-6621e1604119") ∧
      updateBook
        { id := "35b19ead-3aa9-415e-a46d-6621e1604119", title := some "Another Title",
          description := none, isbn := none, publisher := none, genre := none,
          publishYear := none, authorName := none, authorNationality := none } books
        = (some u, pre ++ u :: post) ∧
      u.title = "Another Title" ∧ u.id = b.id ∧ u.description = b.description ∧
      u.isbn = b.isbn ∧ u.publisher = b.publisher ∧ u.genre = b.genre ∧
      u.publishYear = b.publishYear ∧ u.authorName = b.authorName ∧
      u.authorNationality = b.authorNationality) :=
  ⟨by decide, by decide,
    updateBook_title_only "35b19ead-3aa9-415e-a46d-6621e1604119" "Another Title" books
      (by decide) (by decide)⟩

/-- C7: on an existing record, every field of the stored record is
replaced by the supplied value exactly when that value is truthy in the
JavaScript sense; a falsy supplied value (absent, empty string, or the
integer zero for publishYear) leaves the prior stored value in place. -/
theorem updateBook_truthiness (args : UpdateBookArgs) (store : List Book)
    (hmem : ∃ b ∈ store, b.id = args.id) :
    ∃ pre b post u, store = pre ++ b :: post ∧ b.id = args.id ∧
      (∀ x ∈ pre, x.id ≠ args.id) ∧
      updateBook args store = (some u, pre ++ u :: post) ∧
      u.id = b.id ∧
      (truthyStr args.title = true → some u.title = args.title) ∧
      (truthyStr args.title = false → u.title = b.title) ∧
      (truthyStr args.description = true → u.description = args.description) ∧
      (truthyStr args.description = false → u.description = b.description) ∧
      (truthyStr args.isbn = true → u.isbn = args.isbn) ∧
      (truthyStr args.isbn = false → u.isbn = b.isbn) ∧
      (truthyStr args.publisher = true → some u.publisher = args.publisher) ∧
      (truthyStr args.publisher = false → u.publisher = b.publisher) ∧
      (truthyGenre args.genre = true → some u.genre = args.genre) ∧
      (truthyGenre args.genre = false → u.genre = b.genre) ∧
      (truthyInt args.publishYear = true → u.publishYear = args.publishYear) ∧
      (truthyInt args.publishYear = false → u.publishYear = b.publishYear) ∧
      (truthyStr args.authorName = true → some u.authorName = args.authorName) ∧
      (truthyStr args.authorName = false → u.authorName = b.authorName) ∧
      (truthyStr args.authorNationality = true →
        u.authorNationality = args.authorNationality) ∧
      (truthyStr args.authorNationality = false →
        u.authorNationality = b.authorNationality) := by
  have hmem' : ∃ x ∈ store, (x.id == args.id) = true := by
    rcases hmem with ⟨b, hb, hid⟩
    exact ⟨b, hb, by simpa using hid⟩
  rcases exists_first_split _ hmem' with ⟨pre, b, post, rfl, hb, hpre⟩
  have hbid : b.id = args.id := by simpa using hb
  have hpre' : ∀ x ∈ pre, x.id ≠ args.id := by
    intro x hx
    simpa using hpre x hx
  refine ⟨pre, b, post, mergeBook args b, rfl, hbid, hpre',
    updateBook_split args pre b post hpre' hbid, rfl,
    fun h => pickStr_truthy b.title h, fun h => pickStr_falsy b.title h,
    fun h => pickOptStr_truthy b.description h, fun h => pickOptStr_falsy b.description h,
    fun h => pickOptStr_truthy b.isbn h, fun h => pickOptStr_falsy b.isbn h,
    fun h => pickStr_truthy b.publisher h, fun h => pickStr_falsy b.publisher h,
    fun h => pickGenre_truthy b.genre h, fun h => pickGenre_falsy b.genre h,
    fun h => pickOptInt_truthy b.publishYear h, fun h => pickOptInt_falsy b.publishYear h,
    fun h => pickStr_truthy b.authorName h, fun h => pickStr_falsy b.authorName h,
    fun h => pickOptStr_truthy b.authorNationality h,
    fun h => pickOptStr_falsy b.authorNationality h⟩

/-- Witness for C7 at the seed store, with truthy title, authorName and
genre and falsy (empty-string) description and (zero) publishYear. -/
theorem updateBook_truthiness_witness :
    (∃ b ∈ books, b.id = mixedUpdateArgs.id) ∧
    (∃ pre b post u, books = pre ++ b :: post ∧ b.id = mixedUpdateArgs.id ∧
      (∀ x ∈ pre, x.id ≠ mixedUpdateArgs.id) ∧
      updateBook mixedUpdateArgs books = (some u, pre ++ u :: post) ∧
      u.id = b.id ∧
      (truthyStr mixedUpdateArgs.title = true → some u.title = mixedUpdateArgs.title) ∧
      (truthyStr mixedUpdateArgs.title = false → u.title = b.title) ∧
      (truthyStr mixedUpdateArgs.description = true →
        u.description = mixedUpdateArgs.description) ∧
      (truthyStr mixedUpdateArgs.description = false → u.description = b.description) ∧
      (truthyStr mixedUpdateArgs.isbn = true → u.isbn = mixedUpdateArgs.isbn) ∧
      (truthyStr mixedUpdateArgs.isbn = false → u.isbn = b.isbn) ∧
      (truthyStr mixedUpdateArgs.publisher = true →
        some u.publisher = mixedUpdateArgs.publisher) ∧
      (truthyStr mixedUpdateArgs.publisher = false → u.publisher = b.publisher) ∧
      (truthyGenre mixedUpdateArgs.genre = true → some u.genre = mixedUpdateArgs.genre) ∧
      (truthyGenre mixedUpdateArgs.genre = false → u.genre = b.genre) ∧
      (truthyInt mixedUpdateArgs.publishYear = true →
        u.publishYear = mixedUpdateArgs.publishYear) ∧
      (truthyInt mixedUpdateArgs.publishYear = false → u.publishYear = b.publishYear) ∧
      (truthyStr mixedUpdateArgs.authorName = true →
        some u.authorName = mixedUpdateArgs.authorName) ∧
      (truthyStr mixedUpdateArgs.authorName = false → u.authorName = b.authorName) ∧
      (truthyStr mixedUpdateArgs.authorNationality = true →
        u.authorNationality = mixedUpdateArgs.authorNationality) ∧
      (truthyStr mixedUpdateArgs.authorNationality = false →
        u.authorNationality = b.authorNationality)) :=
  ⟨by decide, updateBook_truthiness mixedUpdateArgs books (by decide)⟩

/-- C8: updateBook performs no title-uniqueness check: from the seed
store (a reachable state), retitling the first record to the second
record's title succeeds and leaves two records with distinct ids but the
same title. -/
theorem updateBook_can_introduce_duplicate_title :
    (updateBook retitleUpdateArgs books).1.isSome = true ∧
    (updateBook retitleUpdateArgs books).2.map Book.title
      = ["City of Glass", "City of Glass"] ∧
    ((updateBook retitleUpdateArgs books).2.map Book.id).Nodup := by
  decide

end BookStore
